import Mathlib

/-!
Verification of the gathererMES data-model invariants.

This file shallowly embeds the database layer of the repository
(`src/database/modes.rs`, `src/database/states.rs`,
`src/database/equipment_types.rs`), the mode service
(`src/services/mode_service.rs`) and the equipment path resolution
(`equipment.rs`) as pure Lean functions over an explicit database state,
and proves the spec's claims about them.

Modelling conventions:
- The Postgres store is a `DB` record of row lists plus a fresh-id counter
  and a server clock; each SQL statement becomes a pure function on `DB`.
- Every fallible Rust operation `fn op(db, ...) -> anyhow::Result<T>`
  becomes `op : DB → ... → Except DbErr T × DB`; the returned `DB` is the
  store after the operation (unchanged when no UPDATE/INSERT ran).
- Each `anyhow!` error site in the source is mapped to one `DbErr`
  constructor, tagged with the field or scope the message names.
- Rust `str::len` is byte length, embedded as `String.utf8ByteSize`;
  `str::trim` and `str::to_lowercase` are embedded as the computable
  `strTrim` and `strToLower` below.
-/

namespace GathererMES

instance {ε α : Type} [DecidableEq ε] [DecidableEq α] :
    DecidableEq (Except ε α) := fun a b =>
  match a, b with
  | .ok x, .ok y =>
    if h : x = y then .isTrue (by rw [h])
    else .isFalse (by intro hc; cases hc; exact h rfl)
  | .error x, .error y =>
    if h : x = y then .isTrue (by rw [h])
    else .isFalse (by intro hc; cases hc; exact h rfl)
  | .ok _, .error _ => .isFalse (by intro hc; cases hc)
  | .error _, .ok _ => .isFalse (by intro hc; cases hc)

/-- Whitespace trimming on the underlying character list: drop whitespace
from the front, then from the back. -/
def trimChars (l : List Char) : List Char :=
  ((l.dropWhile Char.isWhitespace).reverse.dropWhile Char.isWhitespace).reverse

/-- Embedding of Rust `str::trim`: remove leading and trailing
whitespace. -/
def strTrim (s : String) : String := ⟨trimChars s.data⟩

/-- Embedding of Rust `str::to_lowercase` (ASCII range, which is all the
search logic distinguishes). -/
def strToLower (s : String) : String :=
  ⟨s.data.map fun c =>
    if 65 ≤ c.toNat ∧ c.toNat ≤ 90 then Char.ofNat (c.toNat + 32) else c⟩

/-- Error classification: one constructor per `anyhow!` site kind in the
database/service source. -/
inductive DbErr where
  /-- "<field> cannot be empty" -/
  | validationEmpty (field : String)
  /-- "<field> exceeds max length of N characters" -/
  | validationTooLong (field : String)
  /-- "state_code cannot be negative" -/
  | validationNegative (field : String)
  /-- "min_code cannot be greater than max_code" -/
  | validationRange
  /-- "<group id> does not exist" -/
  | groupNotExists (field : String)
  /-- "... already exists ..." -/
  | alreadyExists (what : String)
  /-- "Offset cannot be negative" -/
  | offsetNegative
  /-- "Limit must be between 1 and 1000" -/
  | limitOutOfRange
  /-- "No modes provided for bulk creation" -/
  | bulkEmpty
  /-- "Cannot create more than 100 modes at once" -/
  | bulkTooMany
  deriving Repr, DecidableEq

/-- `ModeRow` from `src/database/modes.rs`. -/
structure ModeRow where
  mode_id : Nat
  mode_group_id : Nat
  mode_description : String
  created_at : Option Nat
  updated_at : Option Nat
  deriving Repr, DecidableEq

/-- `StateRow` from `src/database/states.rs`. -/
structure StateRow where
  state_id : Nat
  state_group_id : Nat
  state_code : Int
  state_description : String
  created_at : Option Nat
  updated_at : Option Nat
  deriving Repr, DecidableEq

/-- `EquipmentTypeRow` from `src/database/equipment_types.rs`. -/
structure EquipmentTypeRow where
  type_id : Nat
  type_name : String
  created_at : Option Nat
  updated_at : Option Nat
  deriving Repr, DecidableEq

/-- The relational store (`core` schema): the row sets the claims touch,
a counter for server-assigned ids and a monotone server clock for NOW().
Mode groups and state groups are only consulted for existence, so they
are kept as id lists. -/
structure DB where
  mode_groups : List Nat
  state_groups : List Nat
  modes : List ModeRow
  states : List StateRow
  equipment_types : List EquipmentTypeRow
  next_id : Nat
  now : Nat
  deriving Repr, DecidableEq

def MAX_DESC_LEN : Nat := 2048
def MAX_TYPE_NAME_LEN : Nat := 255

/-- `ModeRowQueries::validate_mode_description`. -/
def validate_mode_description (mode_description : String) : Except DbErr String :=
  let trimmed := strTrim mode_description
  if trimmed.isEmpty then
    .error (.validationEmpty "mode_description")
  else if trimmed.utf8ByteSize > MAX_DESC_LEN then
    .error (.validationTooLong "mode_description")
  else
    .ok trimmed

/-- `StateRowQueries::validate_state_description`. -/
def validate_state_description (state_description : String) : Except DbErr String :=
  let trimmed := strTrim state_description
  if trimmed.isEmpty then
    .error (.validationEmpty "state_description")
  else if trimmed.utf8ByteSize > MAX_DESC_LEN then
    .error (.validationTooLong "state_description")
  else
    .ok trimmed

/-- `StateRowQueries::validate_state_code`. -/
def validate_state_code (state_code : Int) : Except DbErr Int :=
  if state_code < 0 then
    .error (.validationNegative "state_code")
  else
    .ok state_code

/-- `EquipmentTypeQueries::validate_type_name`. -/
def validate_type_name (type_name : String) : Except DbErr String :=
  let trimmed := strTrim type_name
  if trimmed.isEmpty then
    .error (.validationEmpty "type_name")
  else if trimmed.utf8ByteSize > MAX_TYPE_NAME_LEN then
    .error (.validationTooLong "type_name")
  else
    .ok trimmed

/-- `ModeRowQueries::create_mode`: validate, check group existence, check
scoped duplicate description, then INSERT ... RETURNING. -/
def create_mode (db : DB) (mode_group_id : Nat) (mode_description : String) :
    Except DbErr ModeRow × DB :=
  match validate_mode_description mode_description with
  | .error e => (.error e, db)
  | .ok validated =>
    if !(db.mode_groups.contains mode_group_id) then
      (.error (.groupNotExists "mode_group_id"), db)
    else if db.modes.any (fun m =>
        m.mode_group_id == mode_group_id && m.mode_description == validated) then
      (.error (.alreadyExists "mode_description in this mode group"), db)
    else
      let row : ModeRow :=
        { mode_id := db.next_id, mode_group_id := mode_group_id,
          mode_description := validated,
          created_at := some db.now, updated_at := some db.now }
      (.ok row,
       { db with modes := db.modes ++ [row],
                 next_id := db.next_id + 1, now := db.now + 1 })

/-- `StateRowQueries::create_state`: validate description and code, check
group existence, check scoped duplicate code then scoped duplicate
description, then INSERT ... RETURNING. -/
def create_state (db : DB) (state_group_id : Nat) (state_code : Int)
    (state_description : String) : Except DbErr StateRow × DB :=
  match validate_state_description state_description with
  | .error e => (.error e, db)
  | .ok validated_description =>
    match validate_state_code state_code with
    | .error e => (.error e, db)
    | .ok validated_code =>
      if !(db.state_groups.contains state_group_id) then
        (.error (.groupNotExists "state_group_id"), db)
      else if db.states.any (fun s =>
          s.state_group_id == state_group_id && s.state_code == validated_code) then
        (.error (.alreadyExists "state_code in this state group"), db)
      else if db.states.any (fun s =>
          s.state_group_id == state_group_id &&
          s.state_description == validated_description) then
        (.error (.alreadyExists "state_description in this state group"), db)
      else
        let row : StateRow :=
          { state_id := db.next_id, state_group_id := state_group_id,
            state_code := validated_code,
            state_description := validated_description,
            created_at := some db.now, updated_at := some db.now }
        (.ok row,
         { db with states := db.states ++ [row],
                   next_id := db.next_id + 1, now := db.now + 1 })

/-- The UPDATE ... SET state_description = $2, updated_at = NOW()
WHERE state_id = $1 RETURNING ... statement of
`StateRowQueries::update_state_description`. -/
def sql_update_state_description (db : DB) (state_id : Nat)
    (validated : String) : Except DbErr (Option StateRow) × DB :=
  let states := db.states.map (fun s =>
    if s.state_id == state_id then
      { s with state_description := validated, updated_at := some db.now }
    else s)
  (.ok (states.find? (fun s => s.state_id == state_id)),
   { db with states := states, now := db.now + 1 })

/-- `StateRowQueries::update_state_description`: validate, fetch the
current row's group, check the scoped duplicate excluding this row
(`state_id != $3`), then UPDATE. When the row is absent the UPDATE still
runs (affecting nothing) and returns none, as in the source. -/
def update_state_description (db : DB) (state_id : Nat)
    (state_description : String) : Except DbErr (Option StateRow) × DB :=
  match validate_state_description state_description with
  | .error e => (.error e, db)
  | .ok validated =>
    match db.states.find? (fun s => s.state_id == state_id) with
    | some current =>
      if db.states.any (fun s =>
          s.state_group_id == current.state_group_id &&
          s.state_description == validated && s.state_id != state_id) then
        (.error (.alreadyExists "state_description in this state group"), db)
      else
        sql_update_state_description db state_id validated
    | none => sql_update_state_description db state_id validated

/-- The UPDATE ... SET state_group_id = $2, updated_at = NOW()
WHERE state_id = $1 RETURNING ... statement of
`StateRowQueries::update_state_group`. -/
def sql_update_state_group (db : DB) (state_id : Nat)
    (state_group_id : Nat) : Except DbErr (Option StateRow) × DB :=
  let states := db.states.map (fun s =>
    if s.state_id == state_id then
      { s with state_group_id := state_group_id, updated_at := some db.now }
    else s)
  (.ok (states.find? (fun s => s.state_id == state_id)),
   { db with states := states, now := db.now + 1 })

/-- `StateRowQueries::update_state_group`: check the target group exists,
fetch the current row, check duplicate code then duplicate description
against the target group (no self-exclusion in the source), then UPDATE. -/
def update_state_group (db : DB) (state_id : Nat) (state_group_id : Nat) :
    Except DbErr (Option StateRow) × DB :=
  if !(db.state_groups.contains state_group_id) then
    (.error (.groupNotExists "state_group_id"), db)
  else
    match db.states.find? (fun s => s.state_id == state_id) with
    | some current =>
      if db.states.any (fun s =>
          s.state_group_id == state_group_id &&
          s.state_code == current.state_code) then
        (.error (.alreadyExists "state_code in the target state group"), db)
      else if db.states.any (fun s =>
          s.state_group_id == state_group_id &&
          s.state_description == current.state_description) then
        (.error (.alreadyExists "state_description in the target state group"), db)
      else
        sql_update_state_group db state_id state_group_id
    | none => sql_update_state_group db state_id state_group_id

/-- The UPDATE ... SET mode_group_id = $2, updated_at = NOW()
WHERE mode_id = $1 RETURNING ... statement of
`ModeRowQueries::update_mode_group`. -/
def sql_update_mode_group (db : DB) (mode_id : Nat) (mode_group_id : Nat) :
    Except DbErr (Option ModeRow) × DB :=
  let modes := db.modes.map (fun m =>
    if m.mode_id == mode_id then
      { m with mode_group_id := mode_group_id, updated_at := some db.now }
    else m)
  (.ok (modes.find? (fun m => m.mode_id == mode_id)),
   { db with modes := modes, now := db.now + 1 })

/-- `ModeRowQueries::update_mode_group`: check the target group exists,
fetch the current row, check duplicate description against the target
group (no self-exclusion in the source), then UPDATE. -/
def update_mode_group (db : DB) (mode_id : Nat) (mode_group_id : Nat) :
    Except DbErr (Option ModeRow) × DB :=
  if !(db.mode_groups.contains mode_group_id) then
    (.error (.groupNotExists "mode_group_id"), db)
  else
    match db.modes.find? (fun m => m.mode_id == mode_id) with
    | some current =>
      if db.modes.any (fun m =>
          m.mode_group_id == mode_group_id &&
          m.mode_description == current.mode_description) then
        (.error (.alreadyExists "mode_description in the target mode group"), db)
      else
        sql_update_mode_group db mode_id mode_group_id
    | none => sql_update_mode_group db mode_id mode_group_id

/-- `StateRowQueries::get_states_by_code_range`: reject min > max, check
the group exists, then SELECT ... WHERE group and code between the bounds
ORDER BY state_code. -/
def get_states_by_code_range (db : DB) (state_group_id : Nat)
    (min_code max_code : Int) : Except DbErr (List StateRow) × DB :=
  if min_code > max_code then
    (.error .validationRange, db)
  else if !(db.state_groups.contains state_group_id) then
    (.error (.groupNotExists "state_group_id"), db)
  else
    let rows := List.insertionSort (fun a b => a.state_code ≤ b.state_code)
      (db.states.filter (fun s =>
        s.state_group_id == state_group_id &&
        decide (min_code ≤ s.state_code) &&
        decide (s.state_code ≤ max_code)))
    (.ok rows, db)

/-- `EquipmentTypeQueries::update`: validate the name, check the global
duplicate excluding this row (`type_id != $2`), then UPDATE ... RETURNING. -/
def equipment_type_update (db : DB) (type_id : Nat) (type_name : String) :
    Except DbErr (Option EquipmentTypeRow) × DB :=
  match validate_type_name type_name with
  | .error e => (.error e, db)
  | .ok validated =>
    if db.equipment_types.any (fun t =>
        t.type_name == validated && t.type_id != type_id) then
      (.error (.alreadyExists "type_name"), db)
    else
      let types := db.equipment_types.map (fun t =>
        if t.type_id == type_id then
          { t with type_name := validated, updated_at := some db.now }
        else t)
      (.ok (types.find? (fun t => t.type_id == type_id)),
       { db with equipment_types := types, now := db.now + 1 })

/-- `Mode` from `src/services/mode_service.rs`: the service-level view of
a `ModeRow`. -/
structure Mode where
  mode_id : Nat
  mode_group_id : Nat
  mode_description : String
  created_at : Option Nat
  updated_at : Option Nat
  deriving Repr, DecidableEq

/-- `impl From<ModeRow> for Mode`. -/
def Mode.ofRow (row : ModeRow) : Mode :=
  { mode_id := row.mode_id, mode_group_id := row.mode_group_id,
    mode_description := row.mode_description,
    created_at := row.created_at, updated_at := row.updated_at }

/-- Containment of one character list in another, the meaning of the SQL
predicate `lower(col) LIKE '%term%'` for a wildcard-free term. -/
def charsContainSub (needle : List Char) : List Char → Bool
  | [] => needle.isEmpty
  | c :: rest => needle.isPrefixOf (c :: rest) || charsContainSub needle rest

/-- String-level substring containment used to embed LIKE '%term%'. -/
def strContainsSub (hay needle : String) : Bool :=
  charsContainSub needle.data hay.data

/-- `ModeService::get_paginated`: validate offset and limit, COUNT(*) the
whole table, then SELECT ... ORDER BY mode_description LIMIT $1 OFFSET $2. -/
def mode_service_get_paginated (db : DB) (offset limit : Int) :
    Except DbErr (List Mode × Int) × DB :=
  if offset < 0 then
    (.error .offsetNegative, db)
  else if limit ≤ 0 ∨ limit > 1000 then
    (.error .limitOutOfRange, db)
  else
    let total_count : Int := db.modes.length
    let sorted := List.insertionSort
      (fun a b => a.mode_description ≤ b.mode_description) db.modes
    let rows := (sorted.drop offset.toNat).take limit.toNat
    (.ok (rows.map Mode.ofRow, total_count), db)

/-- The dynamically built WHERE predicate of
`ModeService::search_with_filters`: optional mode_group_id equality and
optional case-insensitive description substring (skipped when the search
term trims to empty, as in the source). -/
def search_filter_matches (mode_group_id : Option Nat)
    (description_search : Option String) (m : ModeRow) : Bool :=
  (match mode_group_id with
   | some g => m.mode_group_id == g
   | none => true) &&
  (match description_search with
   | some s =>
     if (strTrim s).isEmpty then true
     else strContainsSub (strToLower m.mode_description) (strToLower (strTrim s))
   | none => true)

/-- `ModeService::search_with_filters`: validate offset and limit, run the
count query and the data query over the same predicate, return the page
and the total count. -/
def mode_service_search_with_filters (db : DB) (mode_group_id : Option Nat)
    (description_search : Option String) (offset limit : Int) :
    Except DbErr (List Mode × Int) × DB :=
  if offset < 0 then
    (.error .offsetNegative, db)
  else if limit ≤ 0 ∨ limit > 1000 then
    (.error .limitOutOfRange, db)
  else
    let filtered := db.modes.filter
      (search_filter_matches mode_group_id description_search)
    let total_count : Int := filtered.length
    let sorted := List.insertionSort
      (fun a b => a.mode_description ≤ b.mode_description) filtered
    let rows := (sorted.drop offset.toNat).take limit.toNat
    (.ok (rows.map Mode.ofRow, total_count), db)

/-- One step of the `ModeService::bulk_create` loop: attempt the create;
on success append the new mode, on error keep going with the store as the
failed create left it. -/
def bulk_create_step (acc : List Mode × DB) (item : Nat × String) :
    List Mode × DB :=
  match create_mode acc.2 item.1 item.2 with
  | (.ok row, db) => (acc.1 ++ [Mode.ofRow row], db)
  | (.error _, db) => (acc.1, db)

/-- `ModeService::bulk_create`: reject an empty batch and a batch of more
than 100, then create each item in order, silently skipping failures. -/
def mode_service_bulk_create (db : DB) (mode_data : List (Nat × String)) :
    Except DbErr (List Mode) × DB :=
  if mode_data.isEmpty then
    (.error .bulkEmpty, db)
  else if mode_data.length > 100 then
    (.error .bulkTooMany, db)
  else
    let final := mode_data.foldl bulk_create_step ([], db)
    (.ok final.1, final.2)

/-- `Equipment` from `equipment.rs`; metadata is an opaque key/value map. -/
structure Equipment where
  equipment_id : Int
  equipment_name : String
  equipment_type_id : Int
  equipment_parent_id : Option Int
  equipment_enabled : Bool
  equipment_metadata : Option (List (String × String))
  created_at : Option Nat
  updated_at : Option Nat
  deriving Repr, DecidableEq

/-- `EquipmentPath` from `equipment.rs`: the root-to-node ancestor chain. -/
structure EquipmentPath where
  equipment_id : Int
  path : List Equipment
  depth : Int
  deriving Repr, DecidableEq

/-- `EquipmentPath::get_enterprise`. -/
def EquipmentPath.get_enterprise (p : EquipmentPath) : Option Equipment :=
  p.path.find? (fun e => e.equipment_type_id == 1)

/-- `EquipmentPath::get_site`. -/
def EquipmentPath.get_site (p : EquipmentPath) : Option Equipment :=
  p.path.find? (fun e => e.equipment_type_id == 2)

/-- `EquipmentPath::get_area`. -/
def EquipmentPath.get_area (p : EquipmentPath) : Option Equipment :=
  p.path.find? (fun e => e.equipment_type_id == 3)

/-- `EquipmentPath::get_line`. -/
def EquipmentPath.get_line (p : EquipmentPath) : Option Equipment :=
  p.path.find? (fun e => e.equipment_type_id == 4)

/-- `EquipmentPath::get_cell`. -/
def EquipmentPath.get_cell (p : EquipmentPath) : Option Equipment :=
  p.path.find? (fun e => e.equipment_type_id == 5)

/-- `EquipmentPath::get_parent`: the second-to-last chain element when the
chain has more than one element. -/
def EquipmentPath.get_parent (p : EquipmentPath) : Option Equipment :=
  if p.path.length > 1 then
    p.path[p.path.length - 2]?
  else
    none


/-! ### Helper definitions and lemmas for the claim proofs -/

/-- The row INSERTed by a successful `create_mode`. -/
def new_mode_row (db : DB) (g : Nat) (d : String) : ModeRow :=
  { mode_id := db.next_id, mode_group_id := g, mode_description := d,
    created_at := some db.now, updated_at := some db.now }

/-- The store after a successful `create_mode`. -/
def db_after_create_mode (db : DB) (g : Nat) (d : String) : DB :=
  { db with
    modes := db.modes ++ [new_mode_row db g d]
    next_id := db.next_id + 1
    now := db.now + 1 }

/-- The row INSERTed by a successful `create_state`. -/
def new_state_row (db : DB) (g : Nat) (c : Int) (d : String) : StateRow :=
  { state_id := db.next_id, state_group_id := g, state_code := c,
    state_description := d, created_at := some db.now, updated_at := some db.now }

/-- The store after a successful `create_state`. -/
def db_after_create_state (db : DB) (g : Nat) (c : Int) (d : String) : DB :=
  { db with
    states := db.states ++ [new_state_row db g c d]
    next_id := db.next_id + 1
    now := db.now + 1 }

/-- An example store with two mode groups and two state groups, used to
instantiate the theorems at concrete inputs. -/
def exDB : DB :=
  { mode_groups := [1, 2], state_groups := [10, 11],
    modes := [], states := [], equipment_types := [],
    next_id := 100, now := 0 }

/-- Example state row: code 150, description "Running", group 10. -/
def stRunning : StateRow :=
  { state_id := 1, state_group_id := 10, state_code := 150,
    state_description := "Running", created_at := some 0, updated_at := some 0 }

/-- Example state row: code 200, description "Stopped", group 10. -/
def stStopped : StateRow :=
  { state_id := 2, state_group_id := 10, state_code := 200,
    state_description := "Stopped", created_at := some 0, updated_at := some 0 }

/-- Example mode row: description "Running", group 1. -/
def mdRunning : ModeRow :=
  { mode_id := 3, mode_group_id := 1, mode_description := "Running",
    created_at := some 0, updated_at := some 0 }

/-- Example equipment type row. -/
def etLine : EquipmentTypeRow :=
  { type_id := 7, type_name := "Line", created_at := some 0, updated_at := some 0 }

/-- An example store populated with the rows above. -/
def exDBFull : DB :=
  { exDB with
    modes := [mdRunning]
    states := [stRunning, stStopped]
    equipment_types := [etLine] }

/-- A minimal equipment node of a given id and type. -/
def eqp (i : Int) (t : Int) : Equipment :=
  { equipment_id := i, equipment_name := "e", equipment_type_id := t,
    equipment_parent_id := none, equipment_enabled := true,
    equipment_metadata := none, created_at := none, updated_at := none }

/-- An example chain with two nodes of type 1 (malformed on purpose) and
no node of type 2. -/
def exPath : EquipmentPath :=
  { equipment_id := 4, path := [eqp 1 1, eqp 2 1, eqp 3 3, eqp 4 5],
    depth := 4 }

/-- An example single-element chain (a root node). -/
def exPathRoot : EquipmentPath :=
  { equipment_id := 1, path := [eqp 1 1], depth := 1 }

instance : IsTotal StateRow (fun a b => a.state_code ≤ b.state_code) :=
  ⟨fun a b => le_total a.state_code b.state_code⟩

instance : IsTrans StateRow (fun a b => a.state_code ≤ b.state_code) :=
  ⟨fun _ _ _ hab hbc => le_trans hab hbc⟩

/-! ### Claim theorems -/

/-- Claim C1: Mode descriptions are unique only within their mode group.
For distinct groups g1 and g2, creating a Mode with the same description
in g1 and then in g2 both succeed; once a Mode with description d exists
in a group, a second create in that group fails with the already-exists
error, while the other group stays usable. -/
theorem mode_description_scoped_unique
    (db : DB) (g1 g2 : Nat) (d d' : String)
    (hne : g1 ≠ g2)
    (hg1 : g1 ∈ db.mode_groups)
    (hg2 : g2 ∈ db.mode_groups)
    (hval : validate_mode_description d = .ok d')
    (h1 : ∀ m ∈ db.modes, m.mode_group_id = g1 → m.mode_description ≠ d')
    (h2 : ∀ m ∈ db.modes, m.mode_group_id = g2 → m.mode_description ≠ d') :
    (create_mode db g1 d).1.isOk = true ∧
    (create_mode (create_mode db g1 d).2 g2 d).1.isOk = true ∧
    (create_mode (create_mode db g1 d).2 g1 d).1 =
      .error (.alreadyExists "mode_description in this mode group") := by
  have hany1 : db.modes.any (fun m =>
      m.mode_group_id == g1 && m.mode_description == d') = false := by
    simp only [List.any_eq_false, Bool.and_eq_true, beq_iff_eq, not_and]
    exact h1
  have hany2 : db.modes.any (fun m =>
      m.mode_group_id == g2 && m.mode_description == d') = false := by
    simp only [List.any_eq_false, Bool.and_eq_true, beq_iff_eq, not_and]
    exact h2
  have hbeq : (g1 == g2) = false := beq_eq_false_iff_ne.mpr hne
  have hstep : create_mode db g1 d =
      (.ok (new_mode_row db g1 d'), db_after_create_mode db g1 d') := by
    simp [create_mode, hval, hg1, hany1, new_mode_row, db_after_create_mode]
  refine ⟨by rw [hstep]; rfl, ?_, ?_⟩
  · rw [hstep]
    simp [create_mode, hval, hg2, hany2, hbeq, hne, new_mode_row,
      db_after_create_mode, Except.isOk, Except.toBool]
  · rw [hstep]
    simp [create_mode, hval, hg1, hany1, new_mode_row, db_after_create_mode]

/-- Witness for C1 at a concrete store: "Running" created in group 1,
then in group 2, then rejected as a duplicate in group 1. -/
theorem mode_description_scoped_unique_witness :
    (create_mode exDB 1 "Running").1.isOk = true ∧
    (create_mode (create_mode exDB 1 "Running").2 2 "Running").1.isOk = true ∧
    (create_mode (create_mode exDB 1 "Running").2 1 "Running").1 =
      .error (.alreadyExists "mode_description in this mode group") :=
  mode_description_scoped_unique exDB 1 2 "Running" "Running"
    (by decide) (by decide) (by decide) (by decide) (by decide) (by decide)

/-- Claim C2: range queries over state codes reject min > max with a
validation error; otherwise, for an existing group, they return exactly
the group's states with code in [min, max], ordered ascending by code. -/
theorem states_by_code_range_spec
    (db : DB) (g : Nat) (min_code max_code : Int)
    (hg : g ∈ db.state_groups) :
    (min_code > max_code →
      get_states_by_code_range db g min_code max_code =
        (.error .validationRange, db)) ∧
    (min_code ≤ max_code →
      ∃ l, get_states_by_code_range db g min_code max_code = (.ok l, db) ∧
        l.Perm (db.states.filter (fun s => decide (s.state_group_id = g ∧
          min_code ≤ s.state_code ∧ s.state_code ≤ max_code))) ∧
        (∀ s, s ∈ l ↔ s ∈ db.states ∧ s.state_group_id = g ∧
          min_code ≤ s.state_code ∧ s.state_code ≤ max_code) ∧
        l.Pairwise (fun a b => a.state_code ≤ b.state_code)) := by
  constructor
  · intro h
    simp [get_states_by_code_range, h]
  · intro h
    have hnot : ¬(min_code > max_code) := not_lt.mpr h
    have hfilter : db.states.filter (fun s =>
        s.state_group_id == g && decide (min_code ≤ s.state_code) &&
        decide (s.state_code ≤ max_code)) =
      db.states.filter (fun s => decide (s.state_group_id = g ∧
        min_code ≤ s.state_code ∧ s.state_code ≤ max_code)) := by
      apply List.filter_congr
      intro s _
      simp only [Bool.and_assoc, beq_eq_decide, Bool.decide_and]
      repeat' congr 1
    refine ⟨List.insertionSort (fun a b => a.state_code ≤ b.state_code)
      (db.states.filter (fun s =>
        s.state_group_id == g &&
        decide (min_code ≤ s.state_code) &&
        decide (s.state_code ≤ max_code))), ?_, ?_, ?_, ?_⟩
    · simp [get_states_by_code_range, hnot, hg]
    · rw [hfilter]
      exact List.perm_insertionSort _ _
    · intro s
      rw [List.mem_insertionSort, List.mem_filter]
      simp [and_assoc]
    · exact List.sorted_insertionSort _ _

/-- Witness for C2: min 200 > max 100 is rejected with a validation
error; the query for [150, 250] on a group holding codes 150 and 200
returns both, ascending. -/
theorem states_by_code_range_spec_witness :
    get_states_by_code_range exDBFull 10 200 100 =
      (.error .validationRange, exDBFull) ∧
    (get_states_by_code_range exDBFull 10 150 250).1 =
      .ok [stRunning, stStopped] :=
  ⟨(states_by_code_range_spec exDBFull 10 200 100 (by decide)).1 (by decide),
   by decide⟩

/-- Claim C3: moving a state to another group re-validates the target
group and re-checks the moved code and description against the target
group; each failed check returns an error, and whenever the operation
errors the store (hence the state row) is completely unchanged. -/
theorem update_state_group_checked_atomic
    (db : DB) (sid gid : Nat) (cur : StateRow)
    (hfind : db.states.find? (fun s => s.state_id == sid) = some cur) :
    (gid ∉ db.state_groups →
      update_state_group db sid gid =
        (.error (.groupNotExists "state_group_id"), db)) ∧
    (gid ∈ db.state_groups →
      (∃ s ∈ db.states, s.state_group_id = gid ∧ s.state_code = cur.state_code) →
      update_state_group db sid gid =
        (.error (.alreadyExists "state_code in the target state group"), db)) ∧
    (gid ∈ db.state_groups →
      (∀ s ∈ db.states, s.state_group_id = gid → s.state_code ≠ cur.state_code) →
      (∃ s ∈ db.states, s.state_group_id = gid ∧
        s.state_description = cur.state_description) →
      update_state_group db sid gid =
        (.error (.alreadyExists "state_description in the target state group"),
         db)) ∧
    (∀ e, (update_state_group db sid gid).1 = .error e →
      (update_state_group db sid gid).2 = db) := by
  refine ⟨?_, ?_, ?_, ?_⟩
  · intro hng
    simp [update_state_group, hng]
  · intro hgm hdup
    have hany : db.states.any (fun s =>
        s.state_group_id == gid && s.state_code == cur.state_code) = true := by
      rcases hdup with ⟨s, hs, hgrp, hcode⟩
      exact List.any_eq_true.mpr ⟨s, hs, by simp [hgrp, hcode]⟩
    simp [update_state_group, hgm, hfind, hany]
  · intro hgm hnocode hdup
    have hanyc : db.states.any (fun s =>
        s.state_group_id == gid && s.state_code == cur.state_code) = false := by
      simp only [List.any_eq_false, Bool.and_eq_true, beq_iff_eq, not_and]
      exact hnocode
    have hanyd : db.states.any (fun s =>
        s.state_group_id == gid &&
        s.state_description == cur.state_description) = true := by
      rcases hdup with ⟨s, hs, hgrp, hdesc⟩
      exact List.any_eq_true.mpr ⟨s, hs, by simp [hgrp, hdesc]⟩
    simp [update_state_group, hgm, hfind, hanyc, hanyd]
  · intro e he
    by_cases h0 : gid ∈ db.state_groups
    · by_cases h1 : ∃ x ∈ db.states,
          x.state_group_id = gid ∧ x.state_code = cur.state_code
      · simp [update_state_group, h0, hfind, h1]
      · by_cases h2 : ∃ x ∈ db.states,
            x.state_group_id = gid ∧
            x.state_description = cur.state_description
        · simp [update_state_group, h0, hfind, h1, h2]
        · exfalso
          simp [update_state_group, h0, hfind, h1, h2,
            sql_update_state_group] at he
    · simp [update_state_group, h0]

/-- Witness for C3: moving a state to a nonexistent group 99 fails and
leaves the store untouched. -/
theorem update_state_group_checked_atomic_witness :
    update_state_group exDBFull 1 99 =
      (.error (.groupNotExists "state_group_id"), exDBFull) ∧
    (update_state_group exDBFull 1 99).2 = exDBFull := by
  have h := update_state_group_checked_atomic exDBFull 1 99 stRunning (by decide)
  refine ⟨h.1 (by decide), ?_⟩
  exact h.2.2.2 (.groupNotExists "state_group_id") (by simp [h.1 (by decide)])

/-- Claim C4: create trims the description first and then validates:
empty-after-trimming and over-2048-bytes inputs are rejected before any
query (for every store, even one without the target group); on success
the stored value is the trimmed string, and a subsequent create with the
already-trimmed value in the same group fails with an already-exists
error. -/
theorem create_state_trims_then_validates
    (db : DB) (g : Nat) (c : Int) (s : String) :
    ((strTrim s).isEmpty = true →
      create_state db g c s =
        (.error (.validationEmpty "state_description"), db)) ∧
    ((strTrim s).isEmpty = false → (strTrim s).utf8ByteSize > MAX_DESC_LEN →
      create_state db g c s =
        (.error (.validationTooLong "state_description"), db)) ∧
    ((strTrim s).isEmpty = false → (strTrim s).utf8ByteSize ≤ MAX_DESC_LEN →
      0 ≤ c → g ∈ db.state_groups →
      (∀ r ∈ db.states, r.state_group_id = g → r.state_code ≠ c) →
      (∀ r ∈ db.states, r.state_group_id = g → r.state_description ≠ strTrim s) →
      create_state db g c s =
        (.ok (new_state_row db g c (strTrim s)),
         db_after_create_state db g c (strTrim s)) ∧
      new_state_row db g c (strTrim s) ∈ (create_state db g c s).2.states ∧
      (∀ s2 : String, strTrim s2 = strTrim s → ∀ c2 : Int, 0 ≤ c2 →
        ∃ w, (create_state (create_state db g c s).2 g c2 s2).1 =
          .error (.alreadyExists w))) := by
  refine ⟨?_, ?_, ?_⟩
  · intro hempty
    simp [create_state, validate_state_description, hempty]
  · intro hem hbig
    simp [create_state, validate_state_description, hem, hbig]
  · intro hem hsize hc hg hnocode hnodesc
    have hval : validate_state_description s = .ok (strTrim s) := by
      simp [validate_state_description, hem, not_lt.mpr hsize]
    have hvc : validate_state_code c = .ok c := by
      simp [validate_state_code, not_lt.mpr hc]
    have hanyc : db.states.any (fun r =>
        r.state_group_id == g && r.state_code == c) = false := by
      simp only [List.any_eq_false, Bool.and_eq_true, beq_iff_eq, not_and]
      exact hnocode
    have hanyd : db.states.any (fun r =>
        r.state_group_id == g && r.state_description == strTrim s) = false := by
      simp only [List.any_eq_false, Bool.and_eq_true, beq_iff_eq, not_and]
      exact hnodesc
    have hstep : create_state db g c s =
        (.ok (new_state_row db g c (strTrim s)),
         db_after_create_state db g c (strTrim s)) := by
      simp [create_state, hval, hvc, hg, hanyc, hanyd, new_state_row,
        db_after_create_state]
    refine ⟨hstep, ?_, ?_⟩
    · rw [hstep]
      simp [db_after_create_state]
    · intro s2 hs2 c2 hc2
      have hval2 : validate_state_description s2 = .ok (strTrim s) := by
        simp [validate_state_description, hs2, hem, not_lt.mpr hsize]
      have hvc2 : validate_state_code c2 = .ok c2 := by
        simp [validate_state_code, not_lt.mpr hc2]
      rw [hstep]
      have hg2 : g ∈ (db_after_create_state db g c (strTrim s)).state_groups := by
        simpa [db_after_create_state] using hg
      by_cases hdup : ∃ x ∈ (db_after_create_state db g c (strTrim s)).states,
          x.state_group_id = g ∧ x.state_code = c2
      · refine ⟨"state_code in this state group", ?_⟩
        simp [create_state, hval2, hvc2, hg2, hdup]
      · refine ⟨"state_description in this state group", ?_⟩
        have hdesc : ∃ x ∈ (db_after_create_state db g c (strTrim s)).states,
            x.state_group_id = g ∧ x.state_description = strTrim s := by
          refine ⟨new_state_row db g c (strTrim s), ?_, ?_, ?_⟩
          · simp [db_after_create_state]
          · simp [new_state_row]
          · simp [new_state_row]
        simp [create_state, hval2, hvc2, hg2, hdup, hdesc]

/-- Witness for C4: "  X  " is stored as "X", a whitespace-only input is
rejected before the (nonexistent) group 99 could be looked up, and the
follow-up create with "X" collides. -/
theorem create_state_trims_then_validates_witness :
    create_state exDB 10 5 "  X  " =
      (.ok (new_state_row exDB 10 5 "X"),
       db_after_create_state exDB 10 5 "X") ∧
    create_state exDB 99 5 "   " =
      (.error (.validationEmpty "state_description"), exDB) ∧
    (create_state (create_state exDB 10 5 "  X  ").2 10 6 "X").1 =
      .error (.alreadyExists "state_description in this state group") := by
  refine ⟨?_, ?_, by decide⟩
  · have h := ((create_state_trims_then_validates exDB 10 5 "  X  ").2.2
      (by decide) (by decide) (by decide) (by decide) (by decide)
      (by decide)).1
    rw [show strTrim "  X  " = "X" from by decide] at h
    exact h
  · exact (create_state_trims_then_validates exDB 99 5 "   ").1 (by decide)

/-- Claim C5: field updates exclude the row being updated from the scoped
duplicate check: updating a state description (or an equipment type name)
to its current value succeeds, and the update fails with an already-exists
error exactly when a different row in the same scope holds the value. -/
theorem update_excludes_self_from_dup_check
    (db : DB) (sid : Nat) (cur : StateRow) (tid : Nat) (t : EquipmentTypeRow)
    (hfind : db.states.find? (fun r => r.state_id == sid) = some cur)
    (hval : validate_state_description cur.state_description =
      .ok cur.state_description)
    (hself : ∀ r ∈ db.states, r.state_group_id = cur.state_group_id →
      r.state_description = cur.state_description → r.state_id = sid)
    (hfindT : db.equipment_types.find? (fun x => x.type_id == tid) = some t)
    (hvalT : validate_type_name t.type_name = .ok t.type_name)
    (hselfT : ∀ r ∈ db.equipment_types, r.type_name = t.type_name →
      r.type_id = tid) :
    (update_state_description db sid cur.state_description).1.isOk = true ∧
    (equipment_type_update db tid t.type_name).1.isOk = true ∧
    (∀ v v', validate_state_description v = .ok v' →
      (∃ r ∈ db.states, r.state_group_id = cur.state_group_id ∧
        r.state_description = v' ∧ r.state_id ≠ sid) →
      update_state_description db sid v =
        (.error (.alreadyExists "state_description in this state group"), db)) ∧
    (∀ v v', validate_type_name v = .ok v' →
      (∃ r ∈ db.equipment_types, r.type_name = v' ∧ r.type_id ≠ tid) →
      equipment_type_update db tid v =
        (.error (.alreadyExists "type_name"), db)) := by
  refine ⟨?_, ?_, ?_, ?_⟩
  · have hany : db.states.any (fun r =>
        r.state_group_id == cur.state_group_id &&
        r.state_description == cur.state_description &&
        r.state_id != sid) = false := by
      simp only [List.any_eq_false, Bool.and_eq_true, bne_iff_ne,
        beq_iff_eq, not_and]
      intro r hr hgd hne
      exact hne (hself r hr hgd.1 hgd.2)
    simp [update_state_description, hval, hfind, hany,
      sql_update_state_description, Except.isOk, Except.toBool]
  · have hanyT : db.equipment_types.any (fun x =>
        x.type_name == t.type_name && x.type_id != tid) = false := by
      simp only [List.any_eq_false, Bool.and_eq_true, bne_iff_ne,
        beq_iff_eq, not_and]
      intro r hr hname hne
      exact hne (hselfT r hr hname)
    simp [equipment_type_update, hvalT, hanyT, Except.isOk, Except.toBool]
  · intro v v' hv hex
    have hany : db.states.any (fun r =>
        r.state_group_id == cur.state_group_id &&
        r.state_description == v' && r.state_id != sid) = true := by
      rcases hex with ⟨r, hr, hgrp, hdesc, hne⟩
      exact List.any_eq_true.mpr ⟨r, hr, by simp [hgrp, hdesc, hne]⟩
    simp [update_state_description, hv, hfind, hany]
  · intro v v' hv hex
    have hany : db.equipment_types.any (fun x =>
        x.type_name == v' && x.type_id != tid) = true := by
      rcases hex with ⟨r, hr, hname, hne⟩
      exact List.any_eq_true.mpr ⟨r, hr, by simp [hname, hne]⟩
    simp [equipment_type_update, hv, hany]

/-- Witness for C5: re-saving the current description "Running" of state
1 succeeds, re-saving the current name "Line" of equipment type 7
succeeds, and renaming state 2 to the value held by the distinct state 1
fails with an already-exists error. -/
theorem update_excludes_self_from_dup_check_witness :
    (update_state_description exDBFull 1 "Running").1.isOk = true ∧
    (equipment_type_update exDBFull 7 "Line").1.isOk = true ∧
    update_state_description exDBFull 2 "Running" =
      (.error (.alreadyExists "state_description in this state group"),
       exDBFull) := by
  refine ⟨?_, ?_, ?_⟩
  · exact (update_excludes_self_from_dup_check exDBFull 1 stRunning 7 etLine
      (by decide) (by decide) (by decide) (by decide) (by decide)
      (by decide)).1
  · exact (update_excludes_self_from_dup_check exDBFull 1 stRunning 7 etLine
      (by decide) (by decide) (by decide) (by decide) (by decide)
      (by decide)).2.1
  · exact (update_excludes_self_from_dup_check exDBFull 2 stStopped 7 etLine
      (by decide) (by decide) (by decide) (by decide) (by decide)
      (by decide)).2.2.1 "Running" "Running" (by decide)
      ⟨stRunning, by decide, by decide, by decide, by decide⟩

/-- Characterization of the first chain element of a given equipment
type: found exactly when it is a match preceded by non-matches, absent
exactly when no element matches. -/
theorem find_first_type_char (l : List Equipment) (k : Int) :
    (∀ e, l.find? (fun x => x.equipment_type_id == k) = some e ↔
      e.equipment_type_id = k ∧ ∃ pre post, l = pre ++ e :: post ∧
        ∀ x ∈ pre, x.equipment_type_id ≠ k) ∧
    (l.find? (fun x => x.equipment_type_id == k) = none ↔
      ∀ x ∈ l, x.equipment_type_id ≠ k) := by
  constructor
  · intro e
    rw [List.find?_eq_some]
    simp
  · rw [List.find?_eq_none]
    simp

/-- Claim C6: each level getter of an equipment path returns the first
chain element (root-to-node order, the node included) whose type id is
the corresponding level number 1..5, and is absent exactly when no
element has that type; on a malformed chain with two nodes of the same
type the earlier one wins. -/
theorem equipment_path_level_getters_first_match (p : EquipmentPath) :
    ((∀ e, p.get_enterprise = some e ↔ e.equipment_type_id = 1 ∧
      ∃ pre post, p.path = pre ++ e :: post ∧
        ∀ x ∈ pre, x.equipment_type_id ≠ 1) ∧
     (p.get_enterprise = none ↔ ∀ x ∈ p.path, x.equipment_type_id ≠ 1)) ∧
    ((∀ e, p.get_site = some e ↔ e.equipment_type_id = 2 ∧
      ∃ pre post, p.path = pre ++ e :: post ∧
        ∀ x ∈ pre, x.equipment_type_id ≠ 2) ∧
     (p.get_site = none ↔ ∀ x ∈ p.path, x.equipment_type_id ≠ 2)) ∧
    ((∀ e, p.get_area = some e ↔ e.equipment_type_id = 3 ∧
      ∃ pre post, p.path = pre ++ e :: post ∧
        ∀ x ∈ pre, x.equipment_type_id ≠ 3) ∧
     (p.get_area = none ↔ ∀ x ∈ p.path, x.equipment_type_id ≠ 3)) ∧
    ((∀ e, p.get_line = some e ↔ e.equipment_type_id = 4 ∧
      ∃ pre post, p.path = pre ++ e :: post ∧
        ∀ x ∈ pre, x.equipment_type_id ≠ 4) ∧
     (p.get_line = none ↔ ∀ x ∈ p.path, x.equipment_type_id ≠ 4)) ∧
    ((∀ e, p.get_cell = some e ↔ e.equipment_type_id = 5 ∧
      ∃ pre post, p.path = pre ++ e :: post ∧
        ∀ x ∈ pre, x.equipment_type_id ≠ 5) ∧
     (p.get_cell = none ↔ ∀ x ∈ p.path, x.equipment_type_id ≠ 5)) :=
  ⟨find_first_type_char p.path 1, find_first_type_char p.path 2,
   find_first_type_char p.path 3, find_first_type_char p.path 4,
   find_first_type_char p.path 5⟩

/-- Witness for C6: on a malformed chain with two type-1 nodes the
earlier one is returned, and a level with no node (site, type 2) is
absent. -/
theorem equipment_path_level_getters_first_match_witness :
    exPath.get_enterprise = some (eqp 1 1) ∧
    exPath.get_site = none := by
  constructor
  · exact ((equipment_path_level_getters_first_match exPath).1.1
      (eqp 1 1)).mpr
      ⟨by decide, [], [eqp 2 1, eqp 3 3, eqp 4 5], by decide, by decide⟩
  · exact (equipment_path_level_getters_first_match exPath).2.1.2.mpr
      (by decide)

/-- Claim C7: get_parent returns the second-to-last element of the chain
when the chain has more than one element, and is absent for a
single-element chain. -/
theorem equipment_path_get_parent_spec (p : EquipmentPath) :
    (∀ pre a b, p.path = pre ++ [a, b] → p.get_parent = some a) ∧
    (p.path.length ≤ 1 → p.get_parent = none) := by
  constructor
  · intro pre a b hpath
    have h1 : p.path.length > 1 := by
      simp [hpath]
    unfold EquipmentPath.get_parent
    rw [if_pos h1, hpath]
    rw [List.getElem?_append_right (by simp [hpath])]
    simp [hpath]
  · intro hlen
    unfold EquipmentPath.get_parent
    rw [if_neg (by omega)]

/-- Witness for C7: the parent of the four-element example chain is its
third element, and the root-only chain has no parent. -/
theorem equipment_path_get_parent_spec_witness :
    exPath.get_parent = some (eqp 3 3) ∧
    exPathRoot.get_parent = none := by
  constructor
  · exact (equipment_path_get_parent_spec exPath).1 [eqp 1 1, eqp 2 1]
      (eqp 3 3) (eqp 4 5) (by decide)
  · exact (equipment_path_get_parent_spec exPathRoot).2 (by decide)

/-- Claim C8: the paginated mode queries validate their parameters before
touching the store: a negative offset or a limit outside [1, 1000] fails
with the corresponding validation error (for every store and filter), and
with both bounds satisfied the call returns a page and a total count. -/
theorem pagination_validates_bounds
    (db : DB) (gf : Option Nat) (ds : Option String) (offset limit : Int) :
    (offset < 0 →
      mode_service_get_paginated db offset limit =
        (.error .offsetNegative, db) ∧
      mode_service_search_with_filters db gf ds offset limit =
        (.error .offsetNegative, db)) ∧
    (0 ≤ offset → (limit < 1 ∨ limit > 1000) →
      mode_service_get_paginated db offset limit =
        (.error .limitOutOfRange, db) ∧
      mode_service_search_with_filters db gf ds offset limit =
        (.error .limitOutOfRange, db)) ∧
    (0 ≤ offset → 1 ≤ limit → limit ≤ 1000 →
      (∃ page total, mode_service_get_paginated db offset limit =
        (.ok (page, total), db)) ∧
      (∃ page total, mode_service_search_with_filters db gf ds offset limit =
        (.ok (page, total), db))) := by
  refine ⟨?_, ?_, ?_⟩
  · intro h
    constructor <;> simp [mode_service_get_paginated,
      mode_service_search_with_filters, h]
  · intro h0 hl
    have hno : ¬ offset < 0 := not_lt.mpr h0
    have hcond : limit ≤ 0 ∨ limit > 1000 := by omega
    constructor <;> simp [mode_service_get_paginated,
      mode_service_search_with_filters, hno, hcond]
  · intro h0 h1 h2
    have hno : ¬ offset < 0 := not_lt.mpr h0
    have hc : ¬ (limit ≤ 0 ∨ limit > 1000) := by omega
    constructor
    · refine ⟨(((List.insertionSort
        (fun a b => a.mode_description ≤ b.mode_description)
        db.modes).drop offset.toNat).take limit.toNat).map Mode.ofRow,
        (db.modes.length : Int), ?_⟩
      simp [mode_service_get_paginated, hno, hc]
    · refine ⟨(((List.insertionSort
        (fun a b => a.mode_description ≤ b.mode_description)
        (db.modes.filter (search_filter_matches gf ds))).drop
          offset.toNat).take limit.toNat).map Mode.ofRow,
        ((db.modes.filter (search_filter_matches gf ds)).length : Int), ?_⟩
      simp [mode_service_search_with_filters, hno, hc]

/-- Witness for C8: offset -1 and limit 2000 are rejected, and a valid
page request on the populated store succeeds. -/
theorem pagination_validates_bounds_witness :
    mode_service_get_paginated exDBFull (-1) 10 =
      (.error .offsetNegative, exDBFull) ∧
    mode_service_search_with_filters exDBFull none none 0 2000 =
      (.error .limitOutOfRange, exDBFull) ∧
    (mode_service_get_paginated exDBFull 0 10).1.isOk = true := by
  refine ⟨?_, ?_, ?_⟩
  · exact ((pagination_validates_bounds exDBFull none none (-1) 10).1
      (by decide)).1
  · exact ((pagination_validates_bounds exDBFull none none 0 2000).2.1
      (by decide) (by decide)).2
  · obtain ⟨page, total, heq⟩ :=
      ((pagination_validates_bounds exDBFull none none 0 10).2.2
        (by decide) (by decide) (by decide)).1
    simp [heq, Except.isOk, Except.toBool]

/-- Claim C9: the target-group duplicate checks of the group-move
operations do not exclude the row being moved, so moving a state (or a
mode) to the group it already belongs to always fails with an
already-exists error instead of succeeding as a no-op. -/
theorem move_to_own_group_always_conflicts
    (db : DB) (sid : Nat) (cur : StateRow) (mid : Nat) (curm : ModeRow)
    (hfindS : db.states.find? (fun r => r.state_id == sid) = some cur)
    (hgS : cur.state_group_id ∈ db.state_groups)
    (hfindM : db.modes.find? (fun m => m.mode_id == mid) = some curm)
    (hgM : curm.mode_group_id ∈ db.mode_groups) :
    update_state_group db sid cur.state_group_id =
      (.error (.alreadyExists "state_code in the target state group"), db) ∧
    update_mode_group db mid curm.mode_group_id =
      (.error (.alreadyExists "mode_description in the target mode group"),
       db) := by
  constructor
  · have hmem := List.mem_of_find?_eq_some hfindS
    have hany : db.states.any (fun s =>
        s.state_group_id == cur.state_group_id &&
        s.state_code == cur.state_code) = true :=
      List.any_eq_true.mpr ⟨cur, hmem, by simp⟩
    simp [update_state_group, hgS, hfindS, hany]
  · have hmem := List.mem_of_find?_eq_some hfindM
    have hany : db.modes.any (fun m =>
        m.mode_group_id == curm.mode_group_id &&
        m.mode_description == curm.mode_description) = true :=
      List.any_eq_true.mpr ⟨curm, hmem, by simp⟩
    simp [update_mode_group, hgM, hfindM, hany]

/-- Witness for C9: moving state 1 to its own group 10 and mode 3 to its
own group 1 both fail with already-exists errors. -/
theorem move_to_own_group_always_conflicts_witness :
    update_state_group exDBFull 1 10 =
      (.error (.alreadyExists "state_code in the target state group"),
       exDBFull) ∧
    update_mode_group exDBFull 3 1 =
      (.error (.alreadyExists "mode_description in the target mode group"),
       exDBFull) :=
  move_to_own_group_always_conflicts exDBFull 1 stRunning 3 mdRunning
    (by decide) (by decide) (by decide) (by decide)

/-- Each bulk-create step grows the accumulated list by at most one. -/
theorem bulk_create_step_length_le (items : List (Nat × String)) :
    ∀ acc : List Mode × DB,
      (items.foldl bulk_create_step acc).1.length ≤
        acc.1.length + items.length := by
  induction items with
  | nil => intro acc; simp
  | cons hd tl ih =>
    intro acc
    rw [List.foldl_cons]
    have hbound := ih (bulk_create_step acc hd)
    have hone : (bulk_create_step acc hd).1.length ≤ acc.1.length + 1 := by
      unfold bulk_create_step
      rcases h : create_mode acc.2 hd.1 hd.2 with ⟨res, db2⟩
      cases res <;> simp [h]
    simp only [List.length_cons]
    omega

/-- Claim C10: bulk_create fails up front on an empty batch or one of
more than 100 entries; otherwise it never fails as a whole: failing items
are skipped and the call returns the successfully created modes, whose
count is at most the input length. -/
theorem bulk_create_skips_failures
    (db : DB) (mode_data : List (Nat × String)) :
    (mode_data = [] →
      mode_service_bulk_create db mode_data = (.error .bulkEmpty, db)) ∧
    (mode_data.length > 100 →
      mode_service_bulk_create db mode_data = (.error .bulkTooMany, db)) ∧
    (mode_data ≠ [] → mode_data.length ≤ 100 →
      ∃ modes db2, mode_service_bulk_create db mode_data = (.ok modes, db2) ∧
        modes.length ≤ mode_data.length) := by
  refine ⟨?_, ?_, ?_⟩
  · intro h
    simp [mode_service_bulk_create, h]
  · intro h
    have hne : mode_data.isEmpty = false := by
      cases mode_data with
      | nil => simp at h
      | cons a l => simp
    simp [mode_service_bulk_create, hne, h]
  · intro hne hlen
    have hne2 : mode_data.isEmpty = false := by
      cases mode_data with
      | nil => exact absurd rfl hne
      | cons a l => simp
    have hgt : ¬ mode_data.length > 100 := by omega
    refine ⟨(mode_data.foldl bulk_create_step ([], db)).1,
      (mode_data.foldl bulk_create_step ([], db)).2, ?_, ?_⟩
    · simp [mode_service_bulk_create, hne2, hgt]
    · have := bulk_create_step_length_le mode_data ([], db)
      simpa using this

/-- Witness for C10: an empty batch is rejected, and a batch of two
identical items succeeds as a whole while creating only the first (the
duplicate is skipped). -/
theorem bulk_create_skips_failures_witness :
    mode_service_bulk_create exDB [] = (.error .bulkEmpty, exDB) ∧
    (mode_service_bulk_create exDB [(1, "A"), (1, "A")]).1.isOk = true ∧
    (mode_service_bulk_create exDB [(1, "A"), (1, "A")]).1 =
      .ok [{ mode_id := 100, mode_group_id := 1, mode_description := "A",
             created_at := some 0, updated_at := some 0 }] := by
  refine ⟨(bulk_create_skips_failures exDB []).1 rfl, ?_, by decide⟩
  obtain ⟨modes, db2, heq, -⟩ :=
    (bulk_create_skips_failures exDB [(1, "A"), (1, "A")]).2.2
      (by decide) (by decide)
  simp [heq, Except.isOk, Except.toBool]

end GathererMES
